import Mathlib

/-!
Verification development for the CRA crypto-analysis engine
(`analysis_engine.py`).  The engine's pure logic is shallowly embedded
here: dictionaries become structures, Python floats become `ℚ`,
`dict.get(key, 0)` becomes `Option ℚ` with `Option.getD 0` (a `none`
field models a missing key), fallible operations return `Except` or
`Option`, and the external libraries (yfinance, pandas_ta, TextBlob,
requests) are modelled as explicit parameters: provider outcomes as
`Except`/`Option` values and the TextBlob polarity model as a function
`String → Option ℚ` (`none` = the per-item scoring raised).
-/

namespace CRA

/-- One OHLCV row of the fetched history DataFrame.  The Python `Open`
column is named `popen` because `open` is a Lean keyword; timestamps are
irrelevant to the engine and omitted. -/
structure PriceBar where
  popen : ℚ
  high : ℚ
  low : ℚ
  close : ℚ
  volume : ℚ
  deriving Repr, DecidableEq

/-- The mutable `self.data` DataFrame: its OHLCV rows plus the three
indicator columns that `analyze_technicals` attaches in place
(`self.data['RSI'] = ...` etc.).  A column entry of `none` models a NaN
(warm-up gap); a column of `none` models the column not yet attached. -/
structure DataFrame where
  bars : List PriceBar
  rsiCol : Option (List (Option ℚ)) := none
  ema50Col : Option (List (Option ℚ)) := none
  ema200Col : Option (List (Option ℚ)) := none
  deriving Repr, DecidableEq

/-- The `asset.info` metadata dictionary.  Each field is `none` when the
key is absent, mirroring `self.info.get(key, 0)` reads. -/
structure AssetInfo where
  marketCap : Option ℚ := none
  volume24Hr : Option ℚ := none
  circulatingSupply : Option ℚ := none
  maxSupply : Option ℚ := none
  fiftyTwoWeekHigh : Option ℚ := none
  fiftyTwoWeekLow : Option ℚ := none
  deriving Repr, DecidableEq

/-- The `CryptoAnalyzer` instance state: `self.data` and `self.info`,
both `None` right after `__init__`.  `info = none` also covers the falsy
empty dictionary (`if not self.info`). -/
structure AnalyzerState where
  data : Option DataFrame := none
  info : Option AssetInfo := none
  deriving Repr, DecidableEq

/-- Result dictionary of `analyze_technicals`. -/
structure TechResult where
  current_price : ℚ
  rsi : ℚ
  ema_50 : ℚ
  ema_200 : ℚ
  trend : String
  support : ℚ
  resistance : ℚ
  deriving Repr, DecidableEq

/-- Result dictionary of `analyze_fundamentals`. -/
structure FundResult where
  market_cap : ℚ
  volume : ℚ
  vol_mcap_ratio : ℚ
  circulating_supply : ℚ
  max_supply : ℚ
  supply_percent : ℚ
  year_high : ℚ
  year_low : ℚ
  range_position : ℚ
  deriving Repr, DecidableEq

/-- A scored headline as stored in `analyzed_news`. -/
structure ScoredItem where
  title : String
  publisher : String
  link : Option String
  sentiment : ℚ
  deriving Repr, DecidableEq

/-- Result dictionary of `analyze_sentiment`. -/
structure SentimentResult where
  score : ℚ
  text : String
  news_list : List ScoredItem
  deriving Repr, DecidableEq

/-! Substring containment, for Python's `"Uptrend" in tech['trend']` -/

/-- Predicate `charsLead pat l` is true when `pat` occurs at the very front of `l`. -/
def charsLead : List Char → List Char → Bool
  | [], _ => true
  | _ :: _, [] => false
  | p :: ps, c :: cs => p == c && charsLead ps cs

/-- Predicate `charsContain pat l` is true when `pat` occurs contiguously anywhere
inside `l` (Python's `in` on strings). -/
def charsContain (pat : List Char) : List Char → Bool
  | [] => pat.isEmpty
  | c :: cs => charsLead pat (c :: cs) || charsContain pat cs

/-- Python `pat in s` for strings. -/
def strContains (s pat : String) : Bool :=
  charsContain pat.toList s.toList

/-! Aggregator `calculate_confidence_score` (analysis_engine.py lines 188-212)

The Python body is a straight-line accumulation of independent deltas on
`score` followed by `return max(0, min(100, score))`; each `if`-group
reads only its own inputs, so it is factored here into one definition per
group, combined in source order. -/

/-- Lines 192-194: `if tech['rsi'] < 30: score += 10 / elif > 70: -= 10 /
elif > 50: += 2`. -/
def rsiDelta (rsi : ℚ) : ℚ :=
  if rsi < 30 then 10
  else if rsi > 70 then -10
  else if rsi > 50 then 2
  else 0

/-- Lines 196-197: `if "Uptrend" in tech['trend']: score += 10 / elif
"Downtrend" in tech['trend']: score -= 15`. -/
def trendDelta (trend : String) : ℚ :=
  if strContains trend "Uptrend" then 10
  else if strContains trend "Downtrend" then -15
  else 0

/-- Line 199: `if tech['current_price'] > tech['ema_200']: score += 5`. -/
def emaPriceDelta (current_price ema_200 : ℚ) : ℚ :=
  if current_price > ema_200 then 5 else 0

/-- Lines 202-203: `if fund['vol_mcap_ratio'] > 0.10: score += 10 / elif
< 0.02: score -= 5`. -/
def ratioDelta (r : ℚ) : ℚ :=
  if r > 1/10 then 10
  else if r < 1/50 then -5
  else 0

/-- Lines 205-206: `if fund['range_position'] < 20: score += 10 / elif
> 90: score -= 10`. -/
def rangeDelta (rp : ℚ) : ℚ :=
  if rp < 20 then 10
  else if rp > 90 then -10
  else 0

/-- Source `calculate_confidence_score(self, tech, fund, sent)`: base 50, the
delta groups in source order, `sent['score'] * 15`, then
`max(0, min(100, score))`.  Note the source performs no rounding. -/
def calculate_confidence_score (tech : TechResult) (fund : FundResult)
    (sent : SentimentResult) : ℚ :=
  max 0 (min 100
    (50 + rsiDelta tech.rsi + trendDelta tech.trend
       + emaPriceDelta tech.current_price tech.ema_200
       + ratioDelta fund.vol_mcap_ratio + rangeDelta fund.range_position
       + sent.score * 15))

/-! Retrieval `fetch_data` (lines 16-24)

`asset.history(period="1y")` and `asset.info` are the two provider
calls; each is modelled as an `Option` outcome whose `none` means the
call raised.  Because `asset.info` can also legitimately return a falsy
value (`None`/`{}`) without raising, its successful outcome carries an
`Option AssetInfo`.  On any exception the function returns `False` with
whatever assignments already happened kept, exactly as in the source. -/

/-- Source `fetch_data(self)`: assigns `self.data` then `self.info`, returns
`not self.data.empty`; any exception yields `False`. -/
def fetch_data (hist : Option (List PriceBar))
    (inf : Option (Option AssetInfo)) (s : AnalyzerState) :
    Bool × AnalyzerState :=
  match hist with
  | none => (false, s)
  | some bars =>
    match inf with
    | none => (false, { s with data := some { bars := bars } })
    | some i => (!bars.isEmpty, { data := some { bars := bars }, info := i })

/-! Technicals `analyze_technicals` (lines 26-65)

`ta.rsi(close, 14)`, `ta.ema(close, 50)`, `ta.ema(close, 200)` are
external pandas_ta calls: pure functions of the closing-price series,
passed in as parameters `rsiFn`, `ema50Fn`, `ema200Fn` producing
NaN-aware columns (`none` entries = NaN warm-up gaps). -/

/-- Minimum of a list of rationals (Python `.min()` over a non-empty
window; 0 on the empty list, which the source never hits). -/
def listMin : List ℚ → ℚ
  | [] => 0
  | x :: xs => xs.foldl min x

/-- Maximum of a list of rationals. -/
def listMax : List ℚ → ℚ
  | [] => 0
  | x :: xs => xs.foldl max x

/-- Python `series.tail(n)`: the last `n` elements. -/
def tailN (n : ℕ) (l : List ℚ) : List ℚ :=
  l.drop (l.length - n)

/-- Lines 45-52, the trend classification over the latest close and the
two (fallback-substituted) EMA values; `current_price > ema_50 > ema_200`
is Python chained comparison. -/
def trend_logic (current_price ema_50 ema_200 : ℚ) : String :=
  if current_price > ema_50 ∧ ema_50 > ema_200 then "Strong Uptrend 🟢"
  else if current_price < ema_50 ∧ ema_50 < ema_200 then "Strong Downtrend 🔴"
  else if current_price > ema_200 then "Moderate Uptrend ↗️"
  else "Weak/Choppy ↘️"

/-- Last entry of an indicator column with the NaN fallback of lines
40-42: `col.iloc[-1] if pd.notna(col.iloc[-1]) else fallback`. -/
def lastOr (col : List (Option ℚ)) (fallback : ℚ) : ℚ :=
  ((col.getLast?).getD none).getD fallback

/-- Source `analyze_technicals(self)`: attaches the three indicator columns to
`self.data` in place, then reads the latest values with NaN fallbacks,
classifies the trend and takes 30-bar support/resistance.  Returns the
updated state together with the result (`none` when
`self.data is None or self.data.empty`). -/
def analyze_technicals
    (rsiFn ema50Fn ema200Fn : List ℚ → List (Option ℚ))
    (s : AnalyzerState) : AnalyzerState × Option TechResult :=
  match s.data with
  | none => (s, none)
  | some df =>
    if df.bars.isEmpty then (s, none)
    else
      let closes := df.bars.map (·.close)
      let rsiCol := rsiFn closes
      let ema50Col := ema50Fn closes
      let ema200Col := ema200Fn closes
      let df' : DataFrame :=
        { df with rsiCol := some rsiCol, ema50Col := some ema50Col,
                  ema200Col := some ema200Col }
      let current_price := (closes.getLast?).getD 0
      let rsi := lastOr rsiCol 50
      let ema_50 := lastOr ema50Col current_price
      let ema_200 := lastOr ema200Col current_price
      let trend := trend_logic current_price ema_50 ema_200
      let support := listMin (tailN 30 (df.bars.map (·.low)))
      let resistance := listMax (tailN 30 (df.bars.map (·.high)))
      ({ s with data := some df' },
       some { current_price := current_price, rsi := rsi, ema_50 := ema_50,
              ema_200 := ema_200, trend := trend, support := support,
              resistance := resistance })

/-! Fundamentals `analyze_fundamentals` (lines 67-107)

Reads of `self.data` can raise in Python (`self.data.empty` on `None`,
`.iloc[-1]` on an empty frame), so the embedding returns
`Except Unit (Option FundResult)`: `.error ()` is an uncaught exception,
`.ok none` is the guarded `return None` for falsy `self.info`. -/

/-- Volume fallback of lines 75-76: `if volume == 0 and not
self.data.empty: volume = self.data['Volume'].iloc[-1]`.  An `error`
is the uncaught Python exception (`self.data.empty` on `None`, or the
impossible empty `iloc[-1]`). -/
def volumeRead (volume0 : ℚ) (data : Option DataFrame) : Except Unit ℚ :=
  if volume0 = 0 then
    match data with
    | none => Except.error ()
    | some df =>
      if df.bars.isEmpty then Except.ok volume0
      else
        match df.bars.getLast? with
        | some b => Except.ok b.volume
        | none => Except.error ()
  else Except.ok volume0

/-- Line 88: `current_price = self.data['Close'].iloc[-1]`, unguarded —
raises on a `None` or empty DataFrame. -/
def closeRead (data : Option DataFrame) : Except Unit ℚ :=
  match data with
  | none => Except.error ()
  | some df =>
    match df.bars.getLast? with
    | some b => Except.ok b.close
    | none => Except.error ()

/-- Source `analyze_fundamentals(self)`, line for line in source order. -/
def analyze_fundamentals (s : AnalyzerState) :
    Except Unit (Option FundResult) :=
  match s.info with
  | none => Except.ok none
  | some info =>
    let mcap := info.marketCap.getD 0
    let volume0 := info.volume24Hr.getD 0
    match volumeRead volume0 s.data with
    | Except.error e => Except.error e
    | Except.ok volume =>
      let circulating_supply := info.circulatingSupply.getD 0
      let max_supply := info.maxSupply.getD 0
      -- `if max_supply and max_supply > 0:` — for a number this is `max_supply > 0`
      let supply_percent :=
        if max_supply > 0 then circulating_supply / max_supply * 100 else 0
      let year_high := info.fiftyTwoWeekHigh.getD 0
      let year_low := info.fiftyTwoWeekLow.getD 0
      match closeRead s.data with
      | Except.error e => Except.error e
      | Except.ok current_price =>
        let range_position :=
          if year_high > year_low
          then (current_price - year_low) / (year_high - year_low) * 100
          else 50
        let vol_mcap_ratio := if mcap > 0 then volume / mcap else 0
        Except.ok (some
          { market_cap := mcap, volume := volume,
            vol_mcap_ratio := vol_mcap_ratio,
            circulating_supply := circulating_supply,
            max_supply := max_supply, supply_percent := supply_percent,
            year_high := year_high, year_low := year_low,
            range_position := range_position })

/-! Sentiment `analyze_sentiment` (lines 109-186)

The two news providers are external collaborators:
  - Yahoo (`asset.news`): a list of dictionaries; `title`, `link`,
    `publisher` may each be missing (`.get`).  The whole call may raise.
  - Google News RSS: a list of parsed `<item>` tags; the `title`,
    `link`, `source` sub-tags may each be missing/falsy.  The request /
    parse may raise.
Both outcomes are `Except Unit (list)`, `.error ()` = the `try` block
raised.  TextBlob is the `scorer : String → Option ℚ` parameter, `none`
meaning the per-item scoring raised (caught by `except: continue`). -/

/-- A raw Yahoo news dictionary (`item.get(...)` fields). -/
structure YahooNewsItem where
  title : Option String := none
  link : Option String := none
  publisher : Option String := none
  deriving Repr, DecidableEq

/-- A raw RSS `<item>` tag; each field is the text of the sub-tag when
that sub-tag is present and truthy. -/
structure RssNewsItem where
  title : Option String := none
  link : Option String := none
  source : Option String := none
  deriving Repr, DecidableEq

/-- A collected headline as appended to `news_items`. -/
structure NewsItem where
  title : String
  link : Option String
  publisher : String
  deriving Repr, DecidableEq

/-- Lines 120-128: keep a Yahoo item only when `title` is a truthy
string (`if title and isinstance(title, str)`). -/
def yahooValid (it : YahooNewsItem) : Option NewsItem :=
  match it.title with
  | none => none
  | some t =>
    if t = "" then none
    else some { title := t, link := it.link,
                publisher := it.publisher.getD "Yahoo Finance" }

/-- Lines 141-148: keep an RSS item only when its title tag has truthy
text (`if item.title and item.title.text`); link defaults to `"#"`,
publisher to `"Google News"`. -/
def rssValid (it : RssNewsItem) : Option NewsItem :=
  match it.title with
  | none => none
  | some t =>
    if t = "" then none
    else some { title := t, link := some (it.link.getD "#"),
                publisher := it.source.getD "Google News" }

/-- Lines 113-150: collect up to 5 valid Yahoo items; if fewer than 2
were collected, append up to 5 valid RSS items.  A provider error
contributes no items (`except: pass` / the logged RSS failure). -/
def collectItems (src1 : Except Unit (List YahooNewsItem))
    (src2 : Except Unit (List RssNewsItem)) : List NewsItem :=
  let items1 :=
    match src1 with
    | Except.error _ => []
    | Except.ok l => (l.take 5).filterMap yahooValid
  if items1.length < 2 then
    items1 ++
      (match src2 with
       | Except.error _ => []
       | Except.ok l => (l.take 5).filterMap rssValid)
  else items1

/-- Lines 159-174, one iteration: score an item's title, skipping it when
the title is falsy (`if item['title']`) or the scorer raises
(`except: continue`). -/
def scoreItem (scorer : String → Option ℚ) (it : NewsItem) :
    Option ScoredItem :=
  if it.title = "" then none
  else
    match scorer it.title with
    | none => none
    | some p => some { title := it.title, publisher := it.publisher,
                       link := it.link, sentiment := p }

/-- Source `analyze_sentiment(self)` from the point the two provider outcomes
are fixed: collect items, short-circuit to `Neutral (No News)` when no
items at all were retrieved, otherwise average the successfully scored
polarities and bucket the average at ±0.1. -/
def analyze_sentiment (src1 : Except Unit (List YahooNewsItem))
    (src2 : Except Unit (List RssNewsItem))
    (scorer : String → Option ℚ) : SentimentResult :=
  let news_items := collectItems src1 src2
  if news_items.isEmpty then
    { score := 0, text := "Neutral (No News)", news_list := [] }
  else
    let analyzed := news_items.filterMap (scoreItem scorer)
    let total := analyzed.foldl (fun acc it => acc + it.sentiment) 0
    let avg := if analyzed.isEmpty then 0 else total / (analyzed.length : ℚ)
    let text :=
      if avg > 1/10 then "Bullish 🟢"
      else if avg < -(1/10) then "Bearish 🔴"
      else "Neutral ⚪"
    { score := avg, text := text, news_list := analyzed }

/-! Concrete sample inputs used by counterexamples and witnesses.  The
"neutral" records make every delta group of the aggregator contribute 0. -/

/-- A technical snapshot triggering no RSI, trend or price/EMA delta. -/
def techNeutral : TechResult :=
  { current_price := 1, rsi := 50, ema_50 := 1, ema_200 := 1,
    trend := "Weak/Choppy ↘️", support := 1, resistance := 1 }

/-- A fundamental snapshot triggering no ratio or range delta. -/
def fundNeutral : FundResult :=
  { market_cap := 100, volume := 5, vol_mcap_ratio := 1/20,
    circulating_supply := 0, max_supply := 0, supply_percent := 0,
    year_high := 2, year_low := 0, range_position := 50 }

/-- A sentiment snapshot with the small non-zero score 0.01. -/
def sentTiny : SentimentResult :=
  { score := 1/100, text := "Neutral ⚪", news_list := [] }

/-- A sentiment snapshot contributing 0. -/
def sentZero : SentimentResult :=
  { score := 0, text := "Neutral ⚪", news_list := [] }

/-- Like `fundNeutral` but with a capped supply 40% circulating. -/
def fundSupply40 : FundResult :=
  { fundNeutral with circulating_supply := 40
                     max_supply := 100
                     supply_percent := 40 }

/-- Like `techNeutral` but in the "Moderate Uptrend" category. -/
def techModerateUp : TechResult :=
  { techNeutral with trend := "Moderate Uptrend ↗️" }

/-! Evaluations of the Python substring tests on the four trend
category strings, proved by kernel computation. -/

theorem weak_has_no_uptrend : strContains "Weak/Choppy ↘️" "Uptrend" = false := rfl

theorem weak_has_no_downtrend : strContains "Weak/Choppy ↘️" "Downtrend" = false := rfl

theorem strong_up_has_uptrend : strContains "Strong Uptrend 🟢" "Uptrend" = true := rfl

theorem moderate_up_has_uptrend : strContains "Moderate Uptrend ↗️" "Uptrend" = true := rfl

theorem strong_down_has_no_uptrend : strContains "Strong Downtrend 🔴" "Uptrend" = false := rfl

theorem strong_down_has_downtrend : strContains "Strong Downtrend 🔴" "Downtrend" = true := rfl

/-! Claim theorems -/

/-- Claim C1, counterexample: `calculate_confidence_score` performs no
rounding, so its return value need not be an integer.  With every delta
neutral and a sentiment score of 0.01 the returned value is
50 + 0.01·15 = 1003/20, which is not an integer. -/
theorem C1_counterexample :
    ¬ ∃ n : ℤ, calculate_confidence_score techNeutral fundNeutral sentTiny
      = (n : ℚ) := by
  rintro ⟨n, h⟩
  have hv : calculate_confidence_score techNeutral fundNeutral sentTiny
      = 1003 / 20 := by
    norm_num [calculate_confidence_score, techNeutral, fundNeutral, sentTiny,
      rsiDelta, trendDelta, emaPriceDelta, ratioDelta, rangeDelta,
      weak_has_no_uptrend, weak_has_no_downtrend, max_def, min_def]
  rw [hv] at h
  have h2 : (1003 : ℚ) = (n : ℚ) * 20 :=
    (div_eq_iff (by norm_num : (20 : ℚ) ≠ 0)).mp h
  have h3 : (1003 : ℤ) = n * 20 := by exact_mod_cast h2
  omega

/-- Claim C1, amended: for every triple of snapshots the returned score
lies in [0, 100] (the `max(0, min(100, ·))` clamp), but it is a rational
value, not necessarily an integer — rounding to the nearest integer
happens only in the display layer. -/
theorem C1_confidence_score_clamped (tech : TechResult) (fund : FundResult)
    (sent : SentimentResult) :
    0 ≤ calculate_confidence_score tech fund sent ∧
    calculate_confidence_score tech fund sent ≤ 100 := by
  unfold calculate_confidence_score
  exact ⟨le_max_left 0 _, max_le (by norm_num) (min_le_left _ _)⟩

/-- Claim C2, counterexample: no supply penalty exists in
`calculate_confidence_score`.  With a present supplyPercent of 40 (< 50,
maxSupply = 100 > 0) and every other delta neutral the score is 50, not
the 45 the claimed −5 delta would give. -/
theorem C2_counterexample :
    fundSupply40.supply_percent = 40 ∧
    calculate_confidence_score techNeutral fundSupply40 sentZero = 50 := by
  refine ⟨by norm_num [fundSupply40, fundNeutral], ?_⟩
  norm_num [calculate_confidence_score, techNeutral, fundSupply40,
    fundNeutral, sentZero, rsiDelta, trendDelta, emaPriceDelta, ratioDelta,
    rangeDelta, weak_has_no_uptrend, weak_has_no_downtrend, max_def, min_def]

/-- Claim C2, amended: the aggregator applies no supply-based delta at
all — the confidence score is independent of the `supply_percent` field
of the fundamental snapshot. -/
theorem C2_score_independent_of_supply (tech : TechResult)
    (fund : FundResult) (sent : SentimentResult) (x : ℚ) :
    calculate_confidence_score tech { fund with supply_percent := x } sent
      = calculate_confidence_score tech fund sent := rfl

/-- Claim C3, counterexample: the aggregator tests `"Uptrend" in trend`,
and the "Moderate Uptrend ↗️" category produced by the trend
classification contains "Uptrend", so it receives +10 — not the "no
trend delta" the claim states.  With every other delta neutral the
aggregate is 60 instead of the claimed 50. -/
theorem C3_counterexample :
    trend_logic 2 3 1 = "Moderate Uptrend ↗️" ∧
    trendDelta "Moderate Uptrend ↗️" = 10 ∧
    calculate_confidence_score techModerateUp fundNeutral sentZero = 60 := by
  refine ⟨?_, ?_, ?_⟩
  · norm_num [trend_logic]
  · norm_num [trendDelta, moderate_up_has_uptrend]
  · norm_num [calculate_confidence_score, techModerateUp, techNeutral,
      fundNeutral, sentZero, rsiDelta, trendDelta, emaPriceDelta,
      ratioDelta, rangeDelta, moderate_up_has_uptrend, max_def, min_def]

/-- Claim C3, amended: over the four trend categories the aggregator's
trend delta is +10 for both "Strong Uptrend 🟢" and "Moderate Uptrend ↗️"
(any trend containing "Uptrend"), −15 for "Strong Downtrend 🔴" (contains
"Downtrend" without "Uptrend"), and 0 for "Weak/Choppy ↘️". -/
theorem C3_trend_delta_by_category :
    trendDelta "Strong Uptrend 🟢" = 10 ∧
    trendDelta "Moderate Uptrend ↗️" = 10 ∧
    trendDelta "Strong Downtrend 🔴" = -15 ∧
    trendDelta "Weak/Choppy ↘️" = 0 := by
  refine ⟨?_, ?_, ?_, ?_⟩
  · norm_num [trendDelta, strong_up_has_uptrend]
  · norm_num [trendDelta, moderate_up_has_uptrend]
  · norm_num [trendDelta, strong_down_has_no_uptrend,
      strong_down_has_downtrend]
  · norm_num [trendDelta, weak_has_no_uptrend, weak_has_no_downtrend]

/-! Sample records and projections for the fundamental-analysis claims. -/

/-- A single price bar. -/
def barA : PriceBar :=
  { popen := 1, high := 2, low := 1/2, close := 1, volume := 3 }

/-- A price bar whose close (200) sits far above the metadata's 52-week
band. -/
def barHigh : PriceBar :=
  { popen := 1, high := 2, low := 1, close := 200, volume := 3 }

/-- A price bar whose close (50) sits inside the band [0, 100]. -/
def barMid : PriceBar :=
  { popen := 1, high := 2, low := 1, close := 50, volume := 3 }

/-- Metadata with no `maxSupply` key (uncapped supply). -/
def infoNoCap : AssetInfo := { circulatingSupply := some 50 }

/-- Metadata with a genuine cap and zero circulating supply, whose
computed supply percentage is 0%. -/
def infoZeroPct : AssetInfo :=
  { circulatingSupply := some 0, maxSupply := some 100 }

/-- Metadata with circulating supply above the cap (200 of 100). -/
def infoOvershoot : AssetInfo :=
  { circulatingSupply := some 200, maxSupply := some 100 }

/-- Metadata with the 52-week band [0, 100]. -/
def infoRange : AssetInfo :=
  { fiftyTwoWeekHigh := some 100, fiftyTwoWeekLow := some 0 }

/-- Analyzer state: one bar, uncapped-supply metadata. -/
def stateNoCap : AnalyzerState :=
  { data := some { bars := [barA] }, info := some infoNoCap }

/-- Analyzer state: one bar, capped metadata with 0% circulating. -/
def stateZeroPct : AnalyzerState :=
  { data := some { bars := [barA] }, info := some infoZeroPct }

/-- Projection: the `supply_percent` field of a successful
`analyze_fundamentals` outcome. -/
def supplyPercentOf (e : Except Unit (Option FundResult)) : Option ℚ :=
  match e with
  | Except.ok (some r) => some r.supply_percent
  | _ => none

/-- Projection: the `range_position` field of a successful
`analyze_fundamentals` outcome. -/
def rangePositionOf (e : Except Unit (Option FundResult)) : Option ℚ :=
  match e with
  | Except.ok (some r) => some r.range_position
  | _ => none

/-- Full evaluation of `analyze_fundamentals` on a present metadata
record and a non-empty DataFrame whose last bar is `b`. -/
theorem analyze_fundamentals_eval (info : AssetInfo) (df : DataFrame)
    (b : PriceBar) (hb : df.bars.getLast? = some b)
    (hne : df.bars.isEmpty = false) :
    analyze_fundamentals { data := some df, info := some info } =
    Except.ok (some
      { market_cap := info.marketCap.getD 0
        volume := if info.volume24Hr.getD 0 = 0 then b.volume
                  else info.volume24Hr.getD 0
        vol_mcap_ratio :=
          if info.marketCap.getD 0 > 0
          then (if info.volume24Hr.getD 0 = 0 then b.volume
                else info.volume24Hr.getD 0) / info.marketCap.getD 0
          else 0
        circulating_supply := info.circulatingSupply.getD 0
        max_supply := info.maxSupply.getD 0
        supply_percent :=
          if info.maxSupply.getD 0 > 0
          then info.circulatingSupply.getD 0 / info.maxSupply.getD 0 * 100
          else 0
        year_high := info.fiftyTwoWeekHigh.getD 0
        year_low := info.fiftyTwoWeekLow.getD 0
        range_position :=
          if info.fiftyTwoWeekHigh.getD 0 > info.fiftyTwoWeekLow.getD 0
          then (b.close - info.fiftyTwoWeekLow.getD 0) /
               (info.fiftyTwoWeekHigh.getD 0 - info.fiftyTwoWeekLow.getD 0)
               * 100
          else 50 }) := by
  by_cases hv : info.volume24Hr.getD 0 = 0 <;>
    simp [analyze_fundamentals, volumeRead, closeRead, hb, hne, hv]

/-- Claim C4, counterexample: `analyze_fundamentals` never produces a
null `supply_percent` — when maxSupply is absent it sets the sentinel 0,
which is indistinguishable from a genuinely computed 0% (cap present,
zero circulating): both states below yield `supply_percent = 0`. -/
theorem C4_counterexample :
    supplyPercentOf (analyze_fundamentals stateNoCap) = some 0 ∧
    supplyPercentOf (analyze_fundamentals stateZeroPct) = some 0 := by
  constructor <;>
    norm_num [stateNoCap, stateZeroPct, infoNoCap, infoZeroPct, barA,
      analyze_fundamentals, volumeRead, closeRead, supplyPercentOf,
      List.getLast?]

/-- Claim C4, amended: on present metadata and a non-empty price series,
`supply_percent` is `circulatingSupply / maxSupply * 100` (unclamped,
may exceed 100) when maxSupply is present and > 0, and otherwise the
sentinel value 0 — not null, and not distinguished from a computed
0%. -/
theorem C4_supply_percent_formula (info : AssetInfo) (df : DataFrame)
    (b : PriceBar) (hb : df.bars.getLast? = some b)
    (hne : df.bars.isEmpty = false) :
    supplyPercentOf (analyze_fundamentals
      { data := some df, info := some info }) =
    some (if info.maxSupply.getD 0 > 0
          then info.circulatingSupply.getD 0 / info.maxSupply.getD 0 * 100
          else 0) := by
  rw [analyze_fundamentals_eval info df b hb hne]
  rfl

/-- Claim C4, witness: at one-bar data and supply 200 of a 100 cap the
amended theorem applies and the formula passes 200% through unclamped. -/
theorem C4_witness :
    ({ bars := [barA] } : DataFrame).bars.getLast? = some barA ∧
    ({ bars := [barA] } : DataFrame).bars.isEmpty = false ∧
    supplyPercentOf (analyze_fundamentals
      { data := some { bars := [barA] }, info := some infoOvershoot }) =
    some (if infoOvershoot.maxSupply.getD 0 > 0
          then infoOvershoot.circulatingSupply.getD 0 /
               infoOvershoot.maxSupply.getD 0 * 100
          else 0) :=
  ⟨rfl, rfl,
   C4_supply_percent_formula infoOvershoot { bars := [barA] } barA rfl rfl⟩

/-- Claim C5: the trend classification is total and mutually exclusive —
for every (close, ema50, ema200) triple of rationals exactly one of the
four category strings is assigned, characterized by the source's
conditions with strict-uptrend checked first. -/
theorem C5_trend_classification (c e50 e200 : ℚ) :
    (trend_logic c e50 e200 = "Strong Uptrend 🟢" ∨
     trend_logic c e50 e200 = "Strong Downtrend 🔴" ∨
     trend_logic c e50 e200 = "Moderate Uptrend ↗️" ∨
     trend_logic c e50 e200 = "Weak/Choppy ↘️") ∧
    (trend_logic c e50 e200 = "Strong Uptrend 🟢" ↔
      c > e50 ∧ e50 > e200) ∧
    (trend_logic c e50 e200 = "Strong Downtrend 🔴" ↔
      c < e50 ∧ e50 < e200) ∧
    (trend_logic c e50 e200 = "Moderate Uptrend ↗️" ↔
      ¬(c > e50 ∧ e50 > e200) ∧ ¬(c < e50 ∧ e50 < e200) ∧ c > e200) ∧
    (trend_logic c e50 e200 = "Weak/Choppy ↘️" ↔
      ¬(c > e50 ∧ e50 > e200) ∧ ¬(c < e50 ∧ e50 < e200) ∧ ¬(c > e200)) := by
  unfold trend_logic
  split_ifs with h1 h2 h3
  · refine ⟨Or.inl rfl, by simpa using h1, ?_, ?_, ?_⟩
    · exact ⟨fun hs => absurd hs (by decide),
        fun hc => absurd h1.1 (asymm hc.1)⟩
    · exact ⟨fun hs => absurd hs (by decide), fun hc => absurd h1 hc.1⟩
    · exact ⟨fun hs => absurd hs (by decide), fun hc => absurd h1 hc.1⟩
  · refine ⟨Or.inr (Or.inl rfl), ?_, by simpa using h2, ?_, ?_⟩
    · exact ⟨fun hs => absurd hs (by decide), fun hc => absurd hc h1⟩
    · exact ⟨fun hs => absurd hs (by decide), fun hc => absurd h2 hc.2.1⟩
    · exact ⟨fun hs => absurd hs (by decide), fun hc => absurd h2 hc.2.1⟩
  · refine ⟨Or.inr (Or.inr (Or.inl rfl)), ?_, ?_, ?_, ?_⟩
    · exact ⟨fun hs => absurd hs (by decide), fun hc => absurd hc h1⟩
    · exact ⟨fun hs => absurd hs (by decide), fun hc => absurd hc h2⟩
    · exact ⟨fun _ => ⟨h1, h2, h3⟩, fun _ => rfl⟩
    · exact ⟨fun hs => absurd hs (by decide), fun hc => absurd h3 hc.2.2⟩
  · refine ⟨Or.inr (Or.inr (Or.inr rfl)), ?_, ?_, ?_, ?_⟩
    · exact ⟨fun hs => absurd hs (by decide), fun hc => absurd hc h1⟩
    · exact ⟨fun hs => absurd hs (by decide), fun hc => absurd hc h2⟩
    · exact ⟨fun hs => absurd hs (by decide), fun hc => absurd hc.2.2 h3⟩
    · exact ⟨fun _ => ⟨h1, h2, h3⟩, fun _ => rfl⟩

/-- Claim C6, counterexample: `range_position` is not confined to
[0, 100] merely because yearHigh > yearLow — the latest close comes from
the price series and is not forced into the metadata's band.  With band
[0, 100] and close 200 the result is 200. -/
theorem C6_counterexample :
    rangePositionOf (analyze_fundamentals
      { data := some { bars := [barHigh] }, info := some infoRange }) =
      some 200 ∧ ¬((200 : ℚ) ≤ 100) := by
  constructor
  · norm_num [analyze_fundamentals, volumeRead, closeRead, rangePositionOf,
      infoRange, barHigh, List.getLast?]
  · norm_num

/-- Claim C6, amended: on present metadata and a non-empty price series,
`range_position` is 50 exactly when yearHigh ≤ yearLow; otherwise it is
`(close − yearLow) / (yearHigh − yearLow) * 100`, which lies in [0, 100]
under the additional hypothesis that the latest close lies inside the
[yearLow, yearHigh] band. -/
theorem C6_range_position (info : AssetInfo) (df : DataFrame)
    (b : PriceBar) (hb : df.bars.getLast? = some b)
    (hne : df.bars.isEmpty = false) :
    (info.fiftyTwoWeekHigh.getD 0 ≤ info.fiftyTwoWeekLow.getD 0 →
      rangePositionOf (analyze_fundamentals
        { data := some df, info := some info }) = some 50) ∧
    (info.fiftyTwoWeekHigh.getD 0 > info.fiftyTwoWeekLow.getD 0 →
      rangePositionOf (analyze_fundamentals
        { data := some df, info := some info }) =
      some ((b.close - info.fiftyTwoWeekLow.getD 0) /
        (info.fiftyTwoWeekHigh.getD 0 - info.fiftyTwoWeekLow.getD 0)
        * 100)) ∧
    (info.fiftyTwoWeekHigh.getD 0 > info.fiftyTwoWeekLow.getD 0 →
     info.fiftyTwoWeekLow.getD 0 ≤ b.close →
     b.close ≤ info.fiftyTwoWeekHigh.getD 0 →
      ∃ rp, rangePositionOf (analyze_fundamentals
        { data := some df, info := some info }) = some rp ∧
        0 ≤ rp ∧ rp ≤ 100) := by
  rw [analyze_fundamentals_eval info df b hb hne]
  set hi := info.fiftyTwoWeekHigh.getD 0 with hhi
  set lo := info.fiftyTwoWeekLow.getD 0 with hlo
  refine ⟨fun h => ?_, fun h => ?_, fun h h1 h2 => ?_⟩
  · simp [rangePositionOf, not_lt.mpr h]
  · simp [rangePositionOf, h]
  · refine ⟨(b.close - lo) / (hi - lo) * 100,
      by simp [rangePositionOf, h], ?_, ?_⟩
    · have hq : (0 : ℚ) ≤ (b.close - lo) / (hi - lo) :=
        div_nonneg (by linarith) (by linarith)
      linarith
    · have hq : (b.close - lo) / (hi - lo) ≤ 1 :=
        (div_le_one (by linarith)).mpr (by linarith)
      linarith

/-- Claim C6, witness: one-bar data with close 50 inside the band
[0, 100]; the degenerate branch is vacuous, the formula branch gives
(50−0)/(100−0)·100 and the bounded branch applies. -/
theorem C6_witness :
    ({ bars := [barMid] } : DataFrame).bars.getLast? = some barMid ∧
    ({ bars := [barMid] } : DataFrame).bars.isEmpty = false ∧
    ((infoRange.fiftyTwoWeekHigh.getD 0 ≤ infoRange.fiftyTwoWeekLow.getD 0 →
      rangePositionOf (analyze_fundamentals
        { data := some { bars := [barMid] }, info := some infoRange }) =
        some 50) ∧
     (infoRange.fiftyTwoWeekHigh.getD 0 > infoRange.fiftyTwoWeekLow.getD 0 →
      rangePositionOf (analyze_fundamentals
        { data := some { bars := [barMid] }, info := some infoRange }) =
      some ((barMid.close - infoRange.fiftyTwoWeekLow.getD 0) /
        (infoRange.fiftyTwoWeekHigh.getD 0 -
         infoRange.fiftyTwoWeekLow.getD 0) * 100)) ∧
     (infoRange.fiftyTwoWeekHigh.getD 0 > infoRange.fiftyTwoWeekLow.getD 0 →
      infoRange.fiftyTwoWeekLow.getD 0 ≤ barMid.close →
      barMid.close ≤ infoRange.fiftyTwoWeekHigh.getD 0 →
      ∃ rp, rangePositionOf (analyze_fundamentals
        { data := some { bars := [barMid] }, info := some infoRange }) =
        some rp ∧ 0 ≤ rp ∧ rp ≤ 100)) :=
  ⟨rfl, rfl, C6_range_position infoRange { bars := [barMid] } barMid rfl rfl⟩

/-! Sample sentiment inputs. -/

/-- A well-formed Yahoo headline. -/
def yahooItemA : YahooNewsItem :=
  { title := some "Crypto steady", link := some "L", publisher := some "P" }

/-- A Yahoo source returning two valid items (no fallback triggered). -/
def srcYahooTwo : Except Unit (List YahooNewsItem) :=
  Except.ok [yahooItemA, yahooItemA]

/-- A polarity model scoring every title 0. -/
def scorerZero : String → Option ℚ := fun _ => some 0

/-- Claim C7: with zero retrieved news items the sentiment result is
score 0, empty item list, and the distinguished "Neutral (No News)"
category — not the regular "Neutral ⚪" category, which genuinely arises
from really scored items (two zero-polarity headlines, last conjunct). -/
theorem C7_no_news_distinguished_neutral
    (src1 : Except Unit (List YahooNewsItem))
    (src2 : Except Unit (List RssNewsItem)) (scorer : String → Option ℚ)
    (h : collectItems src1 src2 = []) :
    analyze_sentiment src1 src2 scorer =
      { score := 0, text := "Neutral (No News)", news_list := [] } ∧
    (analyze_sentiment src1 src2 scorer).text ≠ "Neutral ⚪" ∧
    (analyze_sentiment srcYahooTwo (Except.error ()) scorerZero).text =
      "Neutral ⚪" := by
  refine ⟨by simp [analyze_sentiment, h], ?_, ?_⟩
  · simp [analyze_sentiment, h]
  · have hcol : collectItems srcYahooTwo (Except.error ()) =
        [{ title := "Crypto steady", link := some "L", publisher := "P" },
         { title := "Crypto steady", link := some "L", publisher := "P" }] :=
      rfl
    have hana : ([{ title := "Crypto steady", link := some "L",
                    publisher := "P" },
                  { title := "Crypto steady", link := some "L",
                    publisher := "P" }] : List NewsItem).filterMap
        (scoreItem scorerZero) =
        [{ title := "Crypto steady", publisher := "P", link := some "L",
           sentiment := 0 },
         { title := "Crypto steady", publisher := "P", link := some "L",
           sentiment := 0 }] := rfl
    norm_num [analyze_sentiment, hcol, hana]

/-- Claim C7, witness: both providers erroring out collect zero items. -/
theorem C7_witness :
    collectItems (Except.error ()) (Except.error ()) = [] ∧
    (analyze_sentiment (Except.error ()) (Except.error ()) scorerZero =
      { score := 0, text := "Neutral (No News)", news_list := [] } ∧
     (analyze_sentiment (Except.error ()) (Except.error ())
        scorerZero).text ≠ "Neutral ⚪" ∧
     (analyze_sentiment srcYahooTwo (Except.error ()) scorerZero).text =
       "Neutral ⚪") :=
  ⟨rfl, C7_no_news_distinguished_neutral (Except.error ())
    (Except.error ()) scorerZero rfl⟩

/-- Claim C8: for every behaviour of the two providers (including
errors and malformed per-item fields, all expressible in the two
`Except`/`Option`-shaped inputs) and every behaviour of the polarity
scorer, `analyze_sentiment` is total and returns exactly the
successfully scored collected items in order — a malformed or
unscoreable item is skipped, never aborting the batch. -/
theorem C8_sentiment_never_raises
    (src1 : Except Unit (List YahooNewsItem))
    (src2 : Except Unit (List RssNewsItem)) (scorer : String → Option ℚ) :
    (analyze_sentiment src1 src2 scorer).news_list =
      (collectItems src1 src2).filterMap (scoreItem scorer) ∧
    (analyze_sentiment src1 src2 scorer).news_list.length ≤
      (collectItems src1 src2).length := by
  have h1 : (analyze_sentiment src1 src2 scorer).news_list =
      (collectItems src1 src2).filterMap (scoreItem scorer) := by
    rcases hc : collectItems src1 src2 with _ | ⟨x, xs⟩ <;>
      simp [analyze_sentiment, hc]
  exact ⟨h1, h1 ▸ List.length_filterMap_le _ _⟩

/-- Claim C9: re-running `analyze_technicals` on the state it produced —
same price series, any pure indicator functions — yields the same result
record and leaves the state fixed: the in-place column mutation carries
no hidden state that affects the output. -/
theorem C9_technicals_deterministic
    (rsiFn ema50Fn ema200Fn : List ℚ → List (Option ℚ))
    (s : AnalyzerState) :
    (analyze_technicals rsiFn ema50Fn ema200Fn
      (analyze_technicals rsiFn ema50Fn ema200Fn s).1).2 =
      (analyze_technicals rsiFn ema50Fn ema200Fn s).2 ∧
    (analyze_technicals rsiFn ema50Fn ema200Fn
      (analyze_technicals rsiFn ema50Fn ema200Fn s).1).1 =
      (analyze_technicals rsiFn ema50Fn ema200Fn s).1 := by
  rcases s with ⟨data, info⟩
  rcases data with _ | df
  · exact ⟨rfl, rfl⟩
  · rcases df with ⟨bars, c1, c2, c3⟩
    by_cases hb : bars.isEmpty <;>
      simp [analyze_technicals, hb]

/-- Claim C10: whenever `fetch_data` reports success the fetched price
series is non-empty, and under that precondition `analyze_fundamentals`
performs no out-of-bounds access: it returns normally (with a result, or
`None` when the metadata dictionary itself is falsy) rather than
raising. -/
theorem C10_fundamentals_safe_after_fetch
    (hist : Option (List PriceBar)) (inf : Option (Option AssetInfo))
    (s : AnalyzerState)
    (h : (fetch_data hist inf s).1 = true) :
    ∃ v, analyze_fundamentals (fetch_data hist inf s).2 = Except.ok v := by
  rcases hist with _ | bars
  · simp [fetch_data] at h
  · rcases inf with _ | i
    · simp [fetch_data] at h
    · have hne : bars.isEmpty = false := by
        simpa [fetch_data] using h
      rcases i with _ | info
      · exact ⟨none, rfl⟩
      · have hnil : bars ≠ [] := by
          cases bars with
          | nil => simp at hne
          | cons x xs => exact List.cons_ne_nil x xs
        exact ⟨_, analyze_fundamentals_eval info { bars := bars }
          (bars.getLast hnil)
          (List.getLast?_eq_getLast_of_ne_nil hnil) hne⟩

/-- Claim C10, witness: a successful fetch of a one-bar series followed
by a normal fundamental analysis. -/
theorem C10_witness :
    (fetch_data (some [barA]) (some (some infoRange)) {}).1 = true ∧
    ∃ v, analyze_fundamentals
      (fetch_data (some [barA]) (some (some infoRange)) {}).2 =
      Except.ok v :=
  ⟨rfl, C10_fundamentals_safe_after_fetch (some [barA])
    (some (some infoRange)) {} rfl⟩

end CRA
